import Mathlib

/-!
Shallow embedding of `src/computers/daytona/daytona.py` (the `DaytonaComputer`
adapter).  Remote provider calls are recorded as an explicit event trace;
the remote world (sandbox creation, input-capture activation, deletion and
screenshot capture outcomes) is an oracle parameter `World`.  Python
exceptions are the inductive `PyExn`; a method returns the adapter state
after the call, the list of events it emitted (in order), and either the
raised exception or its return value.
-/

/-- A remote call issued against the sandbox provider, as in §6 of the design. -/
inductive RemoteCall where
  | sandboxCreate (network_block_all : Bool) (network_allow_list : Option String)
      (auto_stop_interval : Nat)
  | computerUseStart
  | sandboxDelete (id : String)
  | procExec (cmd : String) (timeout : Nat)
  | mouseClick (x y : Int) (button : Option String)
  | mouseMove (x y : Int)
  | mouseDrag (x y dx dy : Int)
  | keyPress (key : String)
  | keyHotkey (keys : String)
  | typeText (text : String) (delay : Option Nat)
  | screenshotTake (fmt : String) (show_cursor : Bool)
  deriving Repr, DecidableEq

/-- One observable step of a method: a remote call, a fixed delay
(`time.sleep`, in tenths of a second), a console log line
(`termcolor.cprint` with its color and attrs), or an assignment to the
tracked current URL field. -/
inductive Event where
  | call (c : RemoteCall)
  | sleep (tenths : Nat)
  | cprint (msg color : String) (attrs : List String)
  | setCurrentUrl (url : String)
  deriving Repr, DecidableEq

/-- Python exceptions relevant to the adapter: `ValueError`,
the provider's `DaytonaError`, and any other `Exception`. -/
inductive PyExn where
  | valueError (msg : String)
  | daytonaError (msg : String)
  | otherError (msg : String)
  deriving Repr, DecidableEq

def PyExn.msg : PyExn → String
  | .valueError m => m
  | .daytonaError m => m
  | .otherError m => m

def PyExn.isDaytonaError : PyExn → Bool
  | .daytonaError _ => true
  | _ => false

/-- Opaque handle to a remote sandbox instance (only its `id` is observed). -/
structure Sandbox where
  id : String
  deriving Repr, DecidableEq

/-- `DaytonaConfig(api_key=...)`. -/
structure DaytonaConfig where
  api_key : String
  deriving Repr, DecidableEq

/-- The `Daytona` provider client object. -/
structure Daytona where
  config : DaytonaConfig
  deriving Repr, DecidableEq

instance {ε α : Type} [DecidableEq ε] [DecidableEq α] : DecidableEq (Except ε α) := fun
  | .ok a, .ok b => decidable_of_iff (a = b) (by simp)
  | .error a, .error b => decidable_of_iff (a = b) (by simp)
  | .ok _, .error _ => isFalse (by simp)
  | .error _, .ok _ => isFalse (by simp)

/-- Oracle for the outcomes of the fallible remote steps: sandbox creation,
input-capture activation, sandbox deletion, and screenshot capture (whose
success value is the transport-encoded, i.e. base64, payload).  The
keyboard/mouse event calls are fire-and-forget in every claim considered
and are modelled as always succeeding. -/
structure World where
  createResult : Except PyExn Sandbox
  startResult : Except PyExn Unit
  deleteResult : Except PyExn Unit
  screenshotResult : Except PyExn String
  deriving Repr, DecidableEq

/-- `EnvState(screenshot=..., url=...)`: raw screenshot bytes plus the
tracked current URL. -/
structure EnvState where
  screenshot : List Nat
  url : String
  deriving Repr, DecidableEq

/-! ### base64 decoding (model of the stdlib `base64.b64decode`) -/

/-- Value of a character in the standard base64 alphabet. -/
def b64val (c : Char) : Option Nat :=
  if 'A' ≤ c ∧ c ≤ 'Z' then some (c.toNat - 65)
  else if 'a' ≤ c ∧ c ≤ 'z' then some (c.toNat - 97 + 26)
  else if '0' ≤ c ∧ c ≤ '9' then some (c.toNat - 48 + 52)
  else if c = '+' then some 62
  else if c = '/' then some 63
  else none

/-- Decode a list of base64 sextet values into bytes; a trailing group of a
single sextet is an error (as in `binascii`). -/
def b64quads : List Nat → Except String (List Nat)
  | [] => .ok []
  | [_] => .error "Invalid base64-encoded string"
  | [v0, v1] => .ok [v0 * 4 + v1 / 16]
  | [v0, v1, v2] => .ok [v0 * 4 + v1 / 16, (v1 % 16) * 16 + v2 / 4]
  | v0 :: v1 :: v2 :: v3 :: rest => do
      let tail ← b64quads rest
      .ok ([v0 * 4 + v1 / 16, (v1 % 16) * 16 + v2 / 4, (v2 % 4) * 64 + v3] ++ tail)

/-- Model of `base64.b64decode` (lenient mode, as called by the adapter):
characters outside the alphabet and padding are discarded, decoding stops at
the first padding character, and ill-padded input raises `binascii.Error`. -/
def b64decode (s : String) : Except String (List Nat) :=
  let cs := s.data.filter (fun c => (b64val c).isSome || c == '=')
  let filtered := cs.takeWhile (fun c => c != '=')
  if filtered.length % 4 == 1 then .error "Invalid base64-encoded string"
  else if filtered.length % 4 != 0 && cs.length % 4 != 0 then .error "Incorrect padding"
  else b64quads (filtered.filterMap b64val)

example : b64decode "QUJD" = .ok [65, 66, 67] := by decide
example : b64decode "QQ==" = .ok [65] := by decide
example : (b64decode "QQ").isOk = false := by decide

/-! ### The adapter state and its methods -/

/-- `DAYTONA_KEY_MAP`: the fixed key-name mapping. -/
def DAYTONA_KEY_MAP : List (String × String) :=
  [("control", "ctrl"), ("command", "cmd"), ("meta", "cmd")]

/-- Python `dict.get(k, default)` on an association list. -/
def dictGet (m : List (String × String)) (k d : String) : String :=
  match m.find? (fun p => p.1 == k) with
  | some p => p.2
  | none => d

/-- Sleep constants, in tenths of a second: `SLEEP_ACTION = 0.1`,
`SLEEP_SCREENSHOT = 0.5`, `SLEEP_NAVIGATION = 1.0` seconds. -/
def SLEEP_ACTION : Nat := 1

def SLEEP_SCREENSHOT : Nat := 5

def SLEEP_NAVIGATION : Nat := 10

/-- The fields of a `DaytonaComputer` instance, named as in `__init__`. -/
structure DaytonaComputer where
  screenSize : Int × Int
  initialUrl : String
  searchEngineUrl : String
  networkBlockAll : Bool
  networkAllowList : Option String
  autoStopInterval : Nat
  daytonaClient : Option Daytona
  sandbox : Option Sandbox
  currentUrl : String
  deriving Repr, DecidableEq

/-- `DaytonaComputer.__init__` with its default arguments applied to the
optional parameters left unspecified. -/
def DaytonaComputer.init (screen_size : Int × Int)
    (initial_url : String := "https://www.duckduckgo.com/")
    (search_engine_url : String := "https://duckduckgo.com/")
    (network_block_all : Bool := false)
    (network_allow_list : Option String := some "0.0.0.0/0")
    (auto_stop_interval : Nat := 30) : DaytonaComputer :=
  { screenSize := screen_size
    initialUrl := initial_url
    searchEngineUrl := search_engine_url
    networkBlockAll := network_block_all
    networkAllowList := network_allow_list
    autoStopInterval := auto_stop_interval
    daytonaClient := none
    sandbox := none
    currentUrl := initial_url }

/-- The value a method evaluates to: the adapter state after the call, the
events emitted in order, and the raised exception or the return value. -/
abbrev PyResult (α : Type) := DaytonaComputer × List Event × Except PyExn α

/-- Prepend the events a method emitted before its trailing
`return self.current_state()` to that call's result. -/
def withEvents {α : Type} (pre : List Event) (r : PyResult α) : PyResult α :=
  (r.1, pre ++ r.2.1, r.2.2)

namespace DaytonaComputer

/-- `current_state`: sleep, take a compressed screenshot (png, cursor
shown), base64-decode it; any exception is logged and re-raised; on success
return the bytes together with the tracked current URL. -/
def current_state (self : DaytonaComputer) (w : World) : PyResult EnvState :=
  let pre := [Event.sleep SLEEP_SCREENSHOT, Event.call (.screenshotTake "png" true)]
  match w.screenshotResult with
  | .error e =>
      (self, pre ++ [Event.cprint ("Screenshot failed: " ++ e.msg) "red" []], .error e)
  | .ok payload =>
      match b64decode payload with
      | .error e =>
          (self, pre ++ [Event.cprint ("Screenshot failed: " ++ e) "red" []],
           .error (.otherError e))
      | .ok bytes => (self, pre, .ok { screenshot := bytes, url := self.currentUrl })

/-- `__enter__`: build the client from the `DAYTONA_API_KEY` environment
value, create the sandbox, start remote input capture; a `DaytonaError`
from either remote step is logged and re-raised (any other exception
propagates unlogged).  On success the started sandbox id is logged. -/
def enterSession (self : DaytonaComputer) (apiKeyEnv : Option String) (w : World) :
    PyResult Unit :=
  let cfg : DaytonaConfig := { api_key := apiKeyEnv.getD "" }
  let self := { self with daytonaClient := some { config := cfg } }
  let createCall := Event.call (.sandboxCreate self.networkBlockAll
    self.networkAllowList self.autoStopInterval)
  match w.createResult with
  | .error e =>
      if e.isDaytonaError then
        (self, [createCall,
                Event.cprint ("Failed to create sandbox: " ++ e.msg) "red" []], .error e)
      else (self, [createCall], .error e)
  | .ok sbx =>
      let self := { self with sandbox := some sbx }
      match w.startResult with
      | .error e =>
          if e.isDaytonaError then
            (self, [createCall, Event.call .computerUseStart,
                    Event.cprint ("Failed to create sandbox: " ++ e.msg) "red" []], .error e)
          else (self, [createCall, Event.call .computerUseStart], .error e)
      | .ok _ =>
          (self, [createCall, Event.call .computerUseStart,
                  Event.cprint ("Daytona sandbox started: " ++ sbx.id) "green" ["bold"]],
           .ok ())

/-- `__exit__`: if a sandbox handle is held, issue a best-effort remote
delete; any exception from it is caught and logged.  The exception-info
arguments are ignored by the source and omitted here. -/
def exitSession (self : DaytonaComputer) (w : World) : PyResult Unit :=
  match self.sandbox with
  | none => (self, [], .ok ())
  | some sbx =>
      match w.deleteResult with
      | .ok _ => (self, [Event.call (.sandboxDelete sbx.id)], .ok ())
      | .error e =>
          (self, [Event.call (.sandboxDelete sbx.id),
                  Event.cprint ("Sandbox cleanup failed: " ++ e.msg) "red" []], .ok ())

/-- `screen_size`: pure accessor. -/
def screen_size (self : DaytonaComputer) : Int × Int := self.screenSize

/-- The shell command `open_web_browser` executes (a single-quote character
is written via its code point). -/
def xdgOpenCmd (url : String) : String :=
  let sq := String.singleton (Char.ofNat 39)
  "sh -c " ++ sq ++ "DISPLAY=:0 xdg-open \"" ++ url ++ "\" > /dev/null 2>&1 &" ++ sq

/-- `open_web_browser`: run `xdg-open` on the initial URL, wait the
navigation delay, set the tracked current URL to the initial URL, return
the current state. -/
def open_web_browser (self : DaytonaComputer) (w : World) : PyResult EnvState :=
  let pre := [Event.call (.procExec (xdgOpenCmd self.initialUrl) 1),
              Event.sleep SLEEP_NAVIGATION,
              Event.setCurrentUrl self.initialUrl]
  let self := { self with currentUrl := self.initialUrl }
  withEvents pre (current_state self w)

/-- `scroll_at(x, y, direction, magnitude=800)`: click at `(x, y)` to focus,
then scroll by key press (down/up → PageDown/PageUp, right → Space,
left → Shift+Space); an unsupported direction raises `ValueError`.
The `magnitude` argument is accepted but never used by the body. -/
def scroll_at (self : DaytonaComputer) (x y : Int) (direction : String)
    (magnitude : Int := 800) (w : World) : PyResult EnvState :=
  let _ := magnitude
  let pre := [Event.call (.mouseClick x y none), Event.sleep SLEEP_ACTION]
  if direction = "down" then
    withEvents (pre ++ [Event.call (.keyPress "pagedown"), Event.sleep SLEEP_ACTION])
      (current_state self w)
  else if direction = "up" then
    withEvents (pre ++ [Event.call (.keyPress "pageup"), Event.sleep SLEEP_ACTION])
      (current_state self w)
  else if direction = "right" then
    withEvents (pre ++ [Event.call (.keyPress "space"), Event.sleep SLEEP_ACTION])
      (current_state self w)
  else if direction = "left" then
    withEvents (pre ++ [Event.call (.keyHotkey "shift+space"), Event.sleep SLEEP_ACTION])
      (current_state self w)
  else
    (self, pre, .error (.valueError ("Unsupported direction: " ++ direction)))

/-- `scroll_document(direction)`: down/up press PageDown/PageUp; left/right
delegate to `scroll_at` at the screen center with half the screen width as
magnitude; an unsupported direction raises `ValueError` before anything
else happens. -/
def scroll_document (self : DaytonaComputer) (direction : String) (w : World) :
    PyResult EnvState :=
  if direction = "down" then
    withEvents [Event.call (.keyPress "pagedown"), Event.sleep SLEEP_ACTION]
      (current_state self w)
  else if direction = "up" then
    withEvents [Event.call (.keyPress "pageup"), Event.sleep SLEEP_ACTION]
      (current_state self w)
  else if direction = "left" ∨ direction = "right" then
    let scroll_amount := Int.fdiv self.screenSize.1 2
    let center_x := Int.fdiv self.screenSize.1 2
    let center_y := Int.fdiv self.screenSize.2 2
    scroll_at self center_x center_y direction scroll_amount w
  else
    (self, [], .error (.valueError ("Unsupported direction: " ++ direction)))

/-- `go_back`: Alt+Left, navigation delay, current state. -/
def go_back (self : DaytonaComputer) (w : World) : PyResult EnvState :=
  withEvents [Event.call (.keyHotkey "alt+left"), Event.sleep SLEEP_NAVIGATION]
    (current_state self w)

/-- `go_forward`: Alt+Right, navigation delay, current state. -/
def go_forward (self : DaytonaComputer) (w : World) : PyResult EnvState :=
  withEvents [Event.call (.keyHotkey "alt+right"), Event.sleep SLEEP_NAVIGATION]
    (current_state self w)

/-- Model of Python `str.startswith` on a single candidate. -/
def pyStartswith (s p : String) : Bool := List.isPrefixOf p.data s.data

/-- The URL normalization performed by `navigate`:
`url.startswith(("http://", "https://"))` or prepend the https scheme. -/
def normalizeUrl (url : String) : String :=
  if pyStartswith url "http://" || pyStartswith url "https://" then url
  else "https://" ++ url

/-- `navigate(url)`: normalize the URL, store it as the tracked current URL,
then focus the address bar (F6), type the URL, press Enter, wait the
navigation delay, and return the current state. -/
def navigate (self : DaytonaComputer) (url : String) (w : World) : PyResult EnvState :=
  let normalized_url := normalizeUrl url
  let self := { self with currentUrl := normalized_url }
  let pre := [Event.setCurrentUrl normalized_url,
              Event.call (.keyPress "f6"), Event.sleep SLEEP_ACTION,
              Event.call (.typeText normalized_url none), Event.sleep SLEEP_ACTION,
              Event.call (.keyPress "enter"), Event.sleep SLEEP_NAVIGATION]
  withEvents pre (current_state self w)

/-- `search()`: navigate to the configured search-engine URL. -/
def search (self : DaytonaComputer) (w : World) : PyResult EnvState :=
  navigate self self.searchEngineUrl w

/-- Model of Python `str.lower()` (character-wise lowercasing; the key
names fed to it are ASCII). -/
def pyLower (s : String) : String := String.mk (s.data.map Char.toLower)

/-- The key translation performed by `key_combination`:
`[DAYTONA_KEY_MAP.get(k.lower(), k) for k in keys]`. -/
def normalizeKeys (keys : List String) : List String :=
  keys.map (fun k => dictGet DAYTONA_KEY_MAP (pyLower k) k)

/-- `key_combination(keys)`: lowercase each key and translate it through
`DAYTONA_KEY_MAP` (defaulting to the original key); one resulting key is a
simple press, otherwise the keys are joined with plus signs into a single
hotkey press. -/
def key_combination (self : DaytonaComputer) (keys : List String) (w : World) :
    PyResult EnvState :=
  match normalizeKeys keys with
  | [k] =>
      withEvents [Event.call (.keyPress k), Event.sleep SLEEP_ACTION] (current_state self w)
  | nk =>
      let hotkey_str := String.intercalate "+" nk
      withEvents [Event.call (.keyHotkey hotkey_str), Event.sleep SLEEP_ACTION]
        (current_state self w)

end DaytonaComputer

/-! ### Trace observations -/

/-- The remote provider calls contained in an event trace, in order. -/
def remoteCalls (evs : List Event) : List RemoteCall :=
  evs.filterMap fun e => match e with | .call c => some c | _ => none

/-- The keyboard events (simple presses, hotkeys and typed text) among a
list of remote calls. -/
def keyboardKeys (cs : List RemoteCall) : List String :=
  cs.filterMap fun c =>
    match c with
    | .keyPress k => some k
    | .keyHotkey s => some s
    | .typeText t _ => some t
    | _ => none

/-- The mouse clicks among a list of remote calls. -/
def mouseClicks (cs : List RemoteCall) : List (Int × Int × Option String) :=
  cs.filterMap fun c => match c with | .mouseClick x y b => some (x, y, b) | _ => none

/-- The console log lines in an event trace. -/
def logLines (evs : List Event) : List String :=
  evs.filterMap fun e => match e with | .cprint m _ _ => some m | _ => none

theorem remoteCalls_append (a b : List Event) :
    remoteCalls (a ++ b) = remoteCalls a ++ remoteCalls b :=
  List.filterMap_append a b _

/-- `current_state` does not modify the adapter state. -/
theorem DaytonaComputer.current_state_fst (self : DaytonaComputer) (w : World) :
    (self.current_state w).1 = self := by
  unfold DaytonaComputer.current_state
  cases w.screenshotResult with
  | error e => rfl
  | ok p => cases hb : b64decode p <;> simp [hb]

/-- `current_state` issues exactly one remote call: the screenshot capture. -/
theorem DaytonaComputer.current_state_calls (self : DaytonaComputer) (w : World) :
    remoteCalls (self.current_state w).2.1 = [RemoteCall.screenshotTake "png" true] := by
  unfold DaytonaComputer.current_state
  cases w.screenshotResult with
  | error e => rfl
  | ok p => cases hb : b64decode p <;> simp [hb, remoteCalls]

/-- Value of `current_state` when the remote capture raises. -/
theorem DaytonaComputer.current_state_eq_error (self : DaytonaComputer) (w : World)
    (e : PyExn) (hres : w.screenshotResult = .error e) :
    self.current_state w
      = (self, [Event.sleep SLEEP_SCREENSHOT, Event.call (.screenshotTake "png" true),
          Event.cprint ("Screenshot failed: " ++ e.msg) "red" []], .error e) := by
  simp only [DaytonaComputer.current_state, hres]
  rfl

/-- Value of `current_state` when the capture succeeds and the payload
decodes. -/
theorem DaytonaComputer.current_state_eq_ok (self : DaytonaComputer) (w : World)
    (p : String) (bytes : List Nat) (hres : w.screenshotResult = .ok p)
    (hb : b64decode p = .ok bytes) :
    self.current_state w
      = (self, [Event.sleep SLEEP_SCREENSHOT, Event.call (.screenshotTake "png" true)],
         .ok { screenshot := bytes, url := self.currentUrl }) := by
  simp only [DaytonaComputer.current_state, hres, hb]

/-- Value of `current_state` when the capture succeeds but the payload does
not decode. -/
theorem DaytonaComputer.current_state_eq_decfail (self : DaytonaComputer) (w : World)
    (p : String) (e : String) (hres : w.screenshotResult = .ok p)
    (hb : b64decode p = .error e) :
    self.current_state w
      = (self, [Event.sleep SLEEP_SCREENSHOT, Event.call (.screenshotTake "png" true),
          Event.cprint ("Screenshot failed: " ++ e) "red" []], .error (.otherError e)) := by
  simp only [DaytonaComputer.current_state, hres, hb]
  rfl

/-! ### Concrete fixtures used by witnesses and counterexamples -/

/-- A `DaytonaComputer((1024, 768))` fresh out of `__init__`. -/
def sampleComputer : DaytonaComputer := DaytonaComputer.init (1024, 768)

/-- A world in which every remote step succeeds; the screenshot payload is
the base64 of the bytes `[65, 66, 67]`. -/
def okWorld : World :=
  { createResult := .ok { id := "sb1" }
    startResult := .ok ()
    deleteResult := .ok ()
    screenshotResult := .ok "QUJD" }

/-- The sample adapter holding a live sandbox handle. -/
def activeComputer : DaytonaComputer := { sampleComputer with sandbox := some { id := "sb1" } }

/-- A world whose sandbox-delete call raises. -/
def failDeleteWorld : World := { okWorld with deleteResult := .error (.otherError "boom") }

/-- A world whose input-capture activation raises `DaytonaError` after the
sandbox was created successfully. -/
def failStartWorld : World := { okWorld with startResult := .error (.daytonaError "start failed") }

/-- A world whose screenshot capture raises `DaytonaError`. -/
def failShotWorld : World := { okWorld with screenshotResult := .error (.daytonaError "cap") }

/-! ### Helper lemmas on `withEvents` and `exitSession` -/

theorem withEvents_fst {α : Type} (pre : List Event) (r : PyResult α) :
    (withEvents pre r).1 = r.1 := rfl

theorem withEvents_events {α : Type} (pre : List Event) (r : PyResult α) :
    (withEvents pre r).2.1 = pre ++ r.2.1 := rfl

theorem withEvents_res {α : Type} (pre : List Event) (r : PyResult α) :
    (withEvents pre r).2.2 = r.2.2 := rfl

/-- `__exit__` leaves the adapter state untouched (shared helper). -/
theorem exitSession_fst_eq (self : DaytonaComputer) (w : World) :
    (self.exitSession w).1 = self := by
  unfold DaytonaComputer.exitSession
  cases self.sandbox with
  | none => rfl
  | some sbx => cases w.deleteResult <;> rfl

/-- The remote calls of `__exit__` when a sandbox handle is held (shared
helper). -/
theorem exitSession_calls_of_sandbox (self : DaytonaComputer) (w : World) (sbx : Sandbox)
    (hs : self.sandbox = some sbx) :
    remoteCalls (self.exitSession w).2.1 = [RemoteCall.sandboxDelete sbx.id] := by
  unfold DaytonaComputer.exitSession
  rw [hs]
  cases w.deleteResult <;> simp [remoteCalls]

/-! ### Claim C9 -/

/-- C9: the `magnitude` parameter of `scroll_at` has no effect: for every
position, direction and world, any two magnitude values yield the same
adapter state, the same event trace (hence the same remote calls) and the
same returned result. -/
theorem scroll_at_magnitude_irrelevant (self : DaytonaComputer) (x y : Int)
    (direction : String) (m1 m2 : Int) (w : World) :
    self.scroll_at x y direction m1 w = self.scroll_at x y direction m2 w := rfl

/-! ### Claim C7 -/

/-- C7: `__exit__` (end session) never raises: its outcome is normal return
for every adapter state and every outcome of the remote delete, and when a
sandbox is held and the delete raises, the failure is swallowed and logged
(the trace is exactly the delete call followed by the cleanup log line). -/
theorem exitSession_never_raises (self : DaytonaComputer) (w : World) :
    (self.exitSession w).2.2 = .ok () ∧
    (∀ sbx e, self.sandbox = some sbx → w.deleteResult = .error e →
      (self.exitSession w).2.1
        = [Event.call (.sandboxDelete sbx.id),
           Event.cprint ("Sandbox cleanup failed: " ++ e.msg) "red" []]) := by
  constructor
  · unfold DaytonaComputer.exitSession
    cases self.sandbox with
    | none => rfl
    | some sbx => cases w.deleteResult <;> rfl
  · intro sbx e hs hd
    unfold DaytonaComputer.exitSession
    rw [hs, hd]

/-- C7 witness: on a live sandbox with a failing delete, end session
returns normally and logs the failure. -/
theorem exitSession_never_raises_witness :
    (activeComputer.exitSession failDeleteWorld).2.2 = .ok () ∧
    (activeComputer.exitSession failDeleteWorld).2.1
      = [Event.call (.sandboxDelete "sb1"),
         Event.cprint "Sandbox cleanup failed: boom" "red" []] :=
  ⟨(exitSession_never_raises activeComputer failDeleteWorld).1,
   (exitSession_never_raises activeComputer failDeleteWorld).2 { id := "sb1" }
     (.otherError "boom") rfl rfl⟩

/-! ### Claim C10 -/

/-- C10: `__exit__` leaves the stored session handle and every other field
unchanged (the state after the call is the state before it), so when a
sandbox handle is held, a second end-session call on the resulting state
issues the remote delete again instead of being a no-op. -/
theorem exitSession_frame (self : DaytonaComputer) (w w2 : World) :
    (self.exitSession w).1 = self ∧
    (∀ sbx, self.sandbox = some sbx →
      remoteCalls (self.exitSession w).2.1 = [RemoteCall.sandboxDelete sbx.id] ∧
      remoteCalls ((self.exitSession w).1.exitSession w2).2.1
        = [RemoteCall.sandboxDelete sbx.id]) := by
  refine ⟨exitSession_fst_eq self w, ?_⟩
  intro sbx hs
  refine ⟨exitSession_calls_of_sandbox self w sbx hs, ?_⟩
  rw [exitSession_fst_eq self w]
  exact exitSession_calls_of_sandbox self w2 sbx hs

/-- C10 witness: after a successful session start, two consecutive
end-session calls each issue the remote delete of the same sandbox. -/
theorem exitSession_frame_witness :
    remoteCalls ((sampleComputer.enterSession none okWorld).1.exitSession okWorld).2.1
      = [RemoteCall.sandboxDelete "sb1"] ∧
    remoteCalls
        (((sampleComputer.enterSession none okWorld).1.exitSession okWorld).1.exitSession
          failDeleteWorld).2.1
      = [RemoteCall.sandboxDelete "sb1"] :=
  (exitSession_frame (sampleComputer.enterSession none okWorld).1 okWorld failDeleteWorld).2
    { id := "sb1" } rfl

/-! ### Claim C4 -/

/-- C4: `scroll_document` on left/right is the very same computation as
`scroll_at` at the screen center with magnitude half the screen width
(same state, same events, same result), and on up/down it issues exactly
one PageUp/PageDown keyboard event and no mouse click. -/
theorem scroll_document_cases (self : DaytonaComputer) (w : World) :
    self.scroll_document "left" w
      = self.scroll_at (Int.fdiv self.screenSize.1 2) (Int.fdiv self.screenSize.2 2)
          "left" (Int.fdiv self.screenSize.1 2) w ∧
    self.scroll_document "right" w
      = self.scroll_at (Int.fdiv self.screenSize.1 2) (Int.fdiv self.screenSize.2 2)
          "right" (Int.fdiv self.screenSize.1 2) w ∧
    keyboardKeys (remoteCalls (self.scroll_document "down" w).2.1) = ["pagedown"] ∧
    mouseClicks (remoteCalls (self.scroll_document "down" w).2.1) = [] ∧
    keyboardKeys (remoteCalls (self.scroll_document "up" w).2.1) = ["pageup"] ∧
    mouseClicks (remoteCalls (self.scroll_document "up" w).2.1) = [] := by
  have hdown : (self.scroll_document "down" w).2.1
      = [Event.call (.keyPress "pagedown"), Event.sleep SLEEP_ACTION]
        ++ (self.current_state w).2.1 := rfl
  have hup : (self.scroll_document "up" w).2.1
      = [Event.call (.keyPress "pageup"), Event.sleep SLEEP_ACTION]
        ++ (self.current_state w).2.1 := rfl
  refine ⟨rfl, rfl, ?_, ?_, ?_, ?_⟩ <;>
    first
      | (rw [hdown, remoteCalls_append, DaytonaComputer.current_state_calls]; rfl)
      | (rw [hup, remoteCalls_append, DaytonaComputer.current_state_calls]; rfl)

/-! ### Claim C5 -/

/-- C5: `key_combination` translates each key by lowercasing and looking it
up in `DAYTONA_KEY_MAP` (unmapped names pass through unchanged); a single
resulting key yields one simple press, two or more yield one combined
hotkey press of the tokens joined with plus signs in order; in particular
`["control", "a"]` gives the single combined press of ctrl and a, and
`["Enter"]` gives the single simple press of the unlowered name. -/
theorem key_combination_behavior (self : DaytonaComputer) (keys : List String) (w : World) :
    (∀ t, DaytonaComputer.normalizeKeys keys = [t] →
      remoteCalls (self.key_combination keys w).2.1
        = [RemoteCall.keyPress t, RemoteCall.screenshotTake "png" true]) ∧
    (2 ≤ (DaytonaComputer.normalizeKeys keys).length →
      remoteCalls (self.key_combination keys w).2.1
        = [RemoteCall.keyHotkey
             (String.intercalate "+" (DaytonaComputer.normalizeKeys keys)),
           RemoteCall.screenshotTake "png" true]) ∧
    remoteCalls (self.key_combination ["control", "a"] w).2.1
      = [RemoteCall.keyHotkey "ctrl+a", RemoteCall.screenshotTake "png" true] ∧
    remoteCalls (self.key_combination ["Enter"] w).2.1
      = [RemoteCall.keyPress "Enter", RemoteCall.screenshotTake "png" true] := by
  have hcs := DaytonaComputer.current_state_calls self w
  refine ⟨?_, ?_, ?_, ?_⟩
  · intro t ht
    unfold DaytonaComputer.key_combination
    rw [ht]
    show remoteCalls ([Event.call (.keyPress t), Event.sleep SLEEP_ACTION]
      ++ (self.current_state w).2.1) = _
    rw [remoteCalls_append, hcs]
    rfl
  · intro hlen
    rcases hnk : DaytonaComputer.normalizeKeys keys with _ | ⟨a, _ | ⟨b, tl⟩⟩
    · rw [hnk] at hlen; simp at hlen
    · rw [hnk] at hlen; simp at hlen
    · unfold DaytonaComputer.key_combination
      rw [hnk]
      show remoteCalls ([Event.call (.keyHotkey (String.intercalate "+" (a :: b :: tl))),
        Event.sleep SLEEP_ACTION] ++ (self.current_state w).2.1) = _
      rw [remoteCalls_append, hcs]
      rfl
  · have h : (self.key_combination ["control", "a"] w).2.1
        = [Event.call (.keyHotkey "ctrl+a"), Event.sleep SLEEP_ACTION]
          ++ (self.current_state w).2.1 := rfl
    rw [h, remoteCalls_append, hcs]
    rfl
  · have h : (self.key_combination ["Enter"] w).2.1
        = [Event.call (.keyPress "Enter"), Event.sleep SLEEP_ACTION]
          ++ (self.current_state w).2.1 := rfl
    rw [h, remoteCalls_append, hcs]
    rfl

/-- C5 witness: a mapped pair and an unmapped single key, at concrete
inputs, through the theorem itself. -/
theorem key_combination_behavior_witness :
    remoteCalls (sampleComputer.key_combination ["Enter"] okWorld).2.1
      = [RemoteCall.keyPress "Enter", RemoteCall.screenshotTake "png" true] ∧
    remoteCalls (sampleComputer.key_combination ["control", "a"] okWorld).2.1
      = [RemoteCall.keyHotkey "ctrl+a", RemoteCall.screenshotTake "png" true] :=
  ⟨(key_combination_behavior sampleComputer ["Enter"] okWorld).1 "Enter" rfl,
   (key_combination_behavior sampleComputer ["control", "a"] okWorld).2.2.1⟩

/-! ### Claim C6 -/

/-- C6: `current_state` returns the tracked current URL (the last value set
by `navigate` or `open_web_browser`); `go_back` and `go_forward` leave the
adapter state — the tracked URL and every other field — entirely
unchanged, so after navigate, back and forward the tracked URL is still
the navigated (normalized) one, stale or not. -/
theorem url_tracking_staleness (self : DaytonaComputer) (url : String)
    (w w1 w2 w3 : World) :
    (self.go_back w).1 = self ∧
    (self.go_forward w).1 = self ∧
    (∀ env, (self.current_state w).2.2 = .ok env → env.url = self.currentUrl) ∧
    ((self.navigate url w1).1).currentUrl = DaytonaComputer.normalizeUrl url ∧
    ((((self.navigate url w1).1.go_back w2).1.go_forward w3).1).currentUrl
      = DaytonaComputer.normalizeUrl url ∧
    ((self.open_web_browser w1).1).currentUrl = self.initialUrl := by
  have hback : ∀ (s : DaytonaComputer) (v : World), (s.go_back v).1 = s := fun s v =>
    DaytonaComputer.current_state_fst s v
  have hfwd : ∀ (s : DaytonaComputer) (v : World), (s.go_forward v).1 = s := fun s v =>
    DaytonaComputer.current_state_fst s v
  have hnav : (self.navigate url w1).1
      = { self with currentUrl := DaytonaComputer.normalizeUrl url } := by
    show (DaytonaComputer.current_state _ w1).1 = _
    exact DaytonaComputer.current_state_fst _ w1
  refine ⟨hback self w, hfwd self w, ?_, ?_, ?_, ?_⟩
  · intro env henv
    cases hres : w.screenshotResult with
    | error e =>
      rw [DaytonaComputer.current_state_eq_error self w e hres] at henv
      exact absurd henv (by simp)
    | ok p =>
      cases hb : b64decode p with
      | error e =>
        rw [DaytonaComputer.current_state_eq_decfail self w p e hres hb] at henv
        exact absurd henv (by simp)
      | ok bytes =>
        rw [DaytonaComputer.current_state_eq_ok self w p bytes hres hb] at henv
        have h2 : Except.ok (ε := PyExn)
            ({ screenshot := bytes, url := self.currentUrl } : EnvState)
            = Except.ok env := henv
        rw [Except.ok.injEq] at h2
        rw [← h2]
  · rw [hnav]
  · rw [hback, hfwd, hnav]
  · show ((DaytonaComputer.current_state _ w1).1).currentUrl = _
    rw [DaytonaComputer.current_state_fst]

/-- C6 witness: with a concrete adapter and a succeeding capture, the
returned `EnvState` carries exactly the tracked URL. -/
theorem url_tracking_staleness_witness :
    ({ screenshot := [65, 66, 67], url := "https://www.duckduckgo.com/" } : EnvState).url
      = sampleComputer.currentUrl :=
  (url_tracking_staleness sampleComputer "x" okWorld okWorld okWorld okWorld).2.2.1
    { screenshot := [65, 66, 67], url := "https://www.duckduckgo.com/" } rfl

/-! ### Claim C8 -/

/-- The provider contract on screenshot payloads (§6: the capture returns
transport-encoded image bytes): any payload the capture delivers decodes. -/
def validScreenshotWorld (w : World) : Prop :=
  ∀ s, w.screenshotResult = .ok s → (b64decode s).isOk = true

/-- C8: under the provider payload contract, `current_state` raises exactly
when the remote capture raises; in that case the same exception is logged
and re-raised (not swallowed), and on success it returns the base64-decoded
screenshot bytes together with the tracked current URL. -/
theorem current_state_error_behavior (self : DaytonaComputer) (w : World)
    (hw : validScreenshotWorld w) :
    ((∃ e, (self.current_state w).2.2 = .error e) ↔ (∃ e, w.screenshotResult = .error e)) ∧
    (∀ e, w.screenshotResult = .error e →
      (self.current_state w).2.2 = .error e ∧
      logLines (self.current_state w).2.1 = ["Screenshot failed: " ++ e.msg]) ∧
    (∀ s, w.screenshotResult = .ok s →
      ∃ bytes, b64decode s = .ok bytes ∧
        (self.current_state w).2.2 = .ok { screenshot := bytes, url := self.currentUrl }) := by
  cases hres : w.screenshotResult with
  | error e =>
    have heq := DaytonaComputer.current_state_eq_error self w e hres
    have hval : (self.current_state w).2.2 = .error e := by rw [heq]
    have hlog : logLines (self.current_state w).2.1 = ["Screenshot failed: " ++ e.msg] := by
      rw [heq]; rfl
    refine ⟨⟨fun _ => ⟨e, rfl⟩, fun _ => ⟨e, hval⟩⟩, ?_, ?_⟩
    · intro e2 he2
      rw [Except.error.injEq] at he2
      rw [← he2]
      exact ⟨hval, hlog⟩
    · intro s hs
      exact absurd hs (by simp)
  | ok p =>
    have hdec : (b64decode p).isOk = true := hw p hres
    cases hb : b64decode p with
    | error e2 => rw [hb] at hdec; exact absurd hdec (by simp [Except.isOk, Except.toBool])
    | ok bytes =>
      have heq := DaytonaComputer.current_state_eq_ok self w p bytes hres hb
      have hval : (self.current_state w).2.2
          = .ok { screenshot := bytes, url := self.currentUrl } := by rw [heq]
      refine ⟨⟨?_, ?_⟩, ?_, ?_⟩
      · rintro ⟨e, he⟩
        rw [hval] at he
        exact absurd he (by simp)
      · rintro ⟨e, he⟩
        exact absurd he (by simp)
      · intro e he
        exact absurd he (by simp)
      · intro s hs
        rw [Except.ok.injEq] at hs
        rw [← hs]
        exact ⟨bytes, hb, hval⟩

/-- C8 witness: a failing capture makes `current_state` re-raise that very
exception and log it. -/
theorem current_state_error_behavior_witness :
    (sampleComputer.current_state failShotWorld).2.2 = .error (.daytonaError "cap") ∧
    logLines (sampleComputer.current_state failShotWorld).2.1 = ["Screenshot failed: cap"] :=
  (current_state_error_behavior sampleComputer failShotWorld
    (fun s h => nomatch h)).2.1 (.daytonaError "cap") rfl

/-! ### Claim C1 -/

/-- C1 counterexample: on the unsupported direction, `scroll_at` does raise
`ValueError`, but only after issuing a remote call — the focusing mouse
click — so the claim that no remote call happens before the error is
false for `scroll_at`. -/
theorem scroll_at_diagonal_issues_click_before_error :
    (sampleComputer.scroll_at 10 20 "diagonal" 800 okWorld).2.2
      = .error (.valueError "Unsupported direction: diagonal") ∧
    remoteCalls (sampleComputer.scroll_at 10 20 "diagonal" 800 okWorld).2.1
      = [RemoteCall.mouseClick 10 20 none] ∧
    remoteCalls (sampleComputer.scroll_at 10 20 "diagonal" 800 okWorld).2.1 ≠ [] := by
  have h2 : remoteCalls (sampleComputer.scroll_at 10 20 "diagonal" 800 okWorld).2.1
      = [RemoteCall.mouseClick 10 20 none] := rfl
  refine ⟨rfl, h2, ?_⟩
  rw [h2]
  simp

/-- C1 (amended): an unsupported direction raises `ValueError` in both
methods; `scroll_document` issues no remote call (and no other event)
before the error, while `scroll_at` issues exactly its focusing mouse
click before raising. -/
theorem scroll_unsupported_direction_raises (self : DaytonaComputer) (d : String)
    (x y m : Int) (w : World)
    (h1 : d ≠ "down") (h2 : d ≠ "up") (h3 : d ≠ "left") (h4 : d ≠ "right") :
    (self.scroll_document d w).2.2
      = .error (.valueError ("Unsupported direction: " ++ d)) ∧
    (self.scroll_document d w).2.1 = [] ∧
    (self.scroll_at x y d m w).2.2
      = .error (.valueError ("Unsupported direction: " ++ d)) ∧
    remoteCalls (self.scroll_at x y d m w).2.1 = [RemoteCall.mouseClick x y none] := by
  unfold DaytonaComputer.scroll_document DaytonaComputer.scroll_at
  simp [h1, h2, h3, h4, remoteCalls]

/-- C1 witness: the amended theorem at the concrete direction from the
spec. -/
theorem scroll_unsupported_direction_raises_witness :
    (sampleComputer.scroll_document "diagonal" okWorld).2.1 = [] ∧
    remoteCalls (sampleComputer.scroll_at 30 40 "diagonal" 800 okWorld).2.1
      = [RemoteCall.mouseClick 30 40 none] :=
  let h := scroll_unsupported_direction_raises sampleComputer "diagonal" 30 40 800 okWorld
    (by decide) (by decide) (by decide) (by decide)
  ⟨h.2.1, h.2.2.2⟩

/-! ### Claim C2 -/

/-- C2 counterexample: when sandbox creation succeeds and activating input
capture fails, `__enter__` raises, yet the sandbox handle IS retained, the
failed call issued no delete (the sandbox is left running), and a
subsequent `__exit__` attempts the remote delete rather than being a
no-op. -/
theorem enter_start_failure_retains_sandbox :
    (sampleComputer.enterSession none failStartWorld).2.2
      = .error (.daytonaError "start failed") ∧
    ((sampleComputer.enterSession none failStartWorld).1).sandbox = some { id := "sb1" } ∧
    remoteCalls (sampleComputer.enterSession none failStartWorld).2.1
      = [RemoteCall.sandboxCreate false (some "0.0.0.0/0") 30,
         RemoteCall.computerUseStart] ∧
    remoteCalls ((sampleComputer.enterSession none failStartWorld).1.exitSession
        okWorld).2.1
      = [RemoteCall.sandboxDelete "sb1"] :=
  ⟨rfl, rfl, rfl, rfl⟩

/-- The adapter state right after `__enter__` has installed the provider
client built from the environment's API key. -/
def afterClientInit (self : DaytonaComputer) (env : Option String) : DaytonaComputer :=
  { self with daytonaClient := some { config := { api_key := env.getD "" } } }

/-- C2 (amended): if the sandbox-create step fails, the error is raised, no
session handle is retained and a following end-session is a no-op; but if
creation succeeds and input-capture activation fails, the error is raised
while the created sandbox handle is retained — the failing start-session
issues no delete, and a following end-session attempts the remote
delete. -/
theorem enterSession_failure_behavior (self : DaytonaComputer) (env : Option String)
    (w w2 : World) :
    (∀ e, w.createResult = .error e →
      (self.enterSession env w).2.2 = .error e ∧
      ((self.enterSession env w).1).sandbox = self.sandbox ∧
      (self.sandbox = none →
        (self.enterSession env w).1.exitSession w2
          = ((self.enterSession env w).1, [], .ok ()))) ∧
    (∀ sbx e, w.createResult = .ok sbx → w.startResult = .error e →
      (self.enterSession env w).2.2 = .error e ∧
      ((self.enterSession env w).1).sandbox = some sbx ∧
      remoteCalls (self.enterSession env w).2.1
        = [RemoteCall.sandboxCreate self.networkBlockAll self.networkAllowList
             self.autoStopInterval, RemoteCall.computerUseStart] ∧
      remoteCalls ((self.enterSession env w).1.exitSession w2).2.1
        = [RemoteCall.sandboxDelete sbx.id]) := by
  constructor
  · intro e hc
    have hmain : (self.enterSession env w).2.2 = .error e ∧
        ((self.enterSession env w).1).sandbox = self.sandbox := by
      simp only [DaytonaComputer.enterSession, hc]
      cases he : e.isDaytonaError <;> simp
    refine ⟨hmain.1, hmain.2, ?_⟩
    intro hnone
    have hs2 : ((self.enterSession env w).1).sandbox = none := hmain.2.trans hnone
    unfold DaytonaComputer.exitSession
    rw [hs2]
  · intro sbx e hc hs
    have hstate : (self.enterSession env w).1
        = { afterClientInit self env with sandbox := some sbx } := by
      simp only [DaytonaComputer.enterSession, hc, hs]
      cases he : e.isDaytonaError <;> rfl
    have hres2 : (self.enterSession env w).2.2 = .error e := by
      simp only [DaytonaComputer.enterSession, hc, hs]
      cases he : e.isDaytonaError <;> rfl
    have hcalls : remoteCalls (self.enterSession env w).2.1
        = [RemoteCall.sandboxCreate self.networkBlockAll self.networkAllowList
             self.autoStopInterval, RemoteCall.computerUseStart] := by
      simp only [DaytonaComputer.enterSession, hc, hs]
      cases he : e.isDaytonaError <;> rfl
    refine ⟨hres2, ?_, hcalls, ?_⟩
    · rw [hstate]
    · rw [hstate]
      exact exitSession_calls_of_sandbox _ w2 sbx rfl

/-- C2 witness: the amended theorem at the concrete failing-start world. -/
theorem enterSession_failure_behavior_witness :
    ((sampleComputer.enterSession none failStartWorld).1).sandbox
      = some { id := "sb1" } ∧
    remoteCalls ((sampleComputer.enterSession none failStartWorld).1.exitSession
        failDeleteWorld).2.1
      = [RemoteCall.sandboxDelete "sb1"] :=
  let h := (enterSession_failure_behavior sampleComputer none failStartWorld
    failDeleteWorld).2 { id := "sb1" } (.daytonaError "start failed") rfl rfl
  ⟨h.2.1, h.2.2.2⟩

/-! ### Claim C3 -/

/-- C3 counterexample: `navigate` prepends the https scheme to
`"ftp://x.com"`, a URL that already carries a scheme — refuting
"prepend if and only if no scheme is present": the scheme is not left
untouched. -/
theorem navigate_ftp_url_gets_https_prepended :
    ((sampleComputer.navigate "ftp://x.com" okWorld).1).currentUrl
      = "https://ftp://x.com" ∧
    "https://ftp://x.com" ≠ "ftp://x.com" := by
  refine ⟨rfl, ?_⟩
  decide

/-- C3 (amended): `navigate` prepends the https scheme if and only if the
url does not already start with the literal http or https scheme markers
(`"example.com"` gains it, `"http://x.com"` is untouched, but a foreign
scheme such as `"ftp://x.com"` also gains it), and the tracked current URL
is set to the normalized form as the very first event, before any remote
action executes. -/
theorem navigate_normalizes_and_sets_url_first (self : DaytonaComputer) (url : String)
    (w : World) :
    ((self.navigate url w).1).currentUrl = DaytonaComputer.normalizeUrl url ∧
    (∃ rest, (self.navigate url w).2.1
      = Event.setCurrentUrl (DaytonaComputer.normalizeUrl url) :: rest) ∧
    DaytonaComputer.normalizeUrl "example.com" = "https://example.com" ∧
    DaytonaComputer.normalizeUrl "http://x.com" = "http://x.com" ∧
    DaytonaComputer.normalizeUrl "ftp://x.com" = "https://ftp://x.com" := by
  refine ⟨?_, ?_, rfl, rfl, rfl⟩
  · show ((DaytonaComputer.current_state
      { self with currentUrl := DaytonaComputer.normalizeUrl url } w).1).currentUrl = _
    rw [DaytonaComputer.current_state_fst]
  · exact ⟨[Event.call (.keyPress "f6"), Event.sleep SLEEP_ACTION,
      Event.call (.typeText (DaytonaComputer.normalizeUrl url) none),
      Event.sleep SLEEP_ACTION,
      Event.call (.keyPress "enter"), Event.sleep SLEEP_NAVIGATION]
      ++ (DaytonaComputer.current_state
          { self with currentUrl := DaytonaComputer.normalizeUrl url } w).2.1, rfl⟩
